import Mathlib

/-! The native SPFresh C boundary.

A shallow embedding of `src/backend/native/spfresh_c_api.cc` (declared in
`src/backend/native/spfresh_c_api.h`): the five entry points `spfresh_open`,
`spfresh_close`, `spfresh_add`, `spfresh_search` and `spfresh_save`.

Conventions of the embedding.

* A raw address (`void*`, `SPFreshIndex`) is a natural number, `0` being the
  null pointer.
* The free store is an explicit `Heap`: the addresses that hold a live
  `SPFreshHandle`, with the handle stored there.  Every entry point takes the
  heap and gives back the heap it leaves.
* `new (std::nothrow) SPFreshHandle()` is an input of `spfresh_open`: the
  address the allocator hands out, `0` when it fails.
* A pointer to cells the callee may read or write (`int64_t* out_ids`,
  `float* out_scores`, `void** out_handle`) is an `Option`: `none` is the null
  pointer, `some` carries the cells the pointer reaches.
* `int32_t` and `int64_t` values are integers; no arithmetic of the file can
  leave their range (the only arithmetic is the loop counter `i < topk`).
* A `float` is kept as its IEEE-754 binary32 bit pattern; the only float the
  code produces is the literal `0.0f`, the all-zero pattern.
-/

set_option linter.unusedVariables false

namespace SPFresh

/-- A raw address; `0` is the null pointer. -/
abbrev Ptr := Nat

/-- A `float` cell as its IEEE-754 binary32 bit pattern. -/
abbrev F32 := Nat

/-- The literal `0.0f`. -/
def zeroF32 : F32 := 0

/-- The cells a non-null `T*` reaches, by element offset from the pointer. -/
abbrev Buffer (α : Type) := Nat → α

/-- The assignment `buf[i] = v`. -/
def Buffer.write {α : Type} (buf : Buffer α) (i : Nat) (v : α) : Buffer α :=
  fun j => if j = i then v else buf j

/-- `struct SPFreshStatus { int32_t code; const char* message; }`; a null
`message` is `none`. -/
structure SPFreshStatus where
  code : Int
  message : Option String
deriving DecidableEq, Repr

/-- `struct SPFreshHandle { int32_t dim = 0; }`. -/
structure SPFreshHandle where
  dim : Int := 0
deriving DecidableEq, Repr

/-- The free store: the handle living at each address, `none` where no handle
lives. -/
abbrev Heap := Ptr → Option SPFreshHandle

/-- The free store with no live handle. -/
def Heap.empty : Heap := fun _ => none

/-- What `spfresh_open` leaves: the returned status, the free store, and the
cell behind `out_handle` (`none` when `out_handle` is null). -/
structure OpenResult where
  status : SPFreshStatus
  heap : Heap
  out_handle : Option Ptr

/-- What `spfresh_add` and `spfresh_save` leave: the returned status and the
free store. -/
structure CallResult where
  status : SPFreshStatus
  heap : Heap

/-- What `spfresh_search` leaves: the returned status, the free store and the
two caller-owned output buffers. -/
structure SearchResult where
  status : SPFreshStatus
  heap : Heap
  out_ids : Option (Buffer Int)
  out_scores : Option (Buffer F32)

/-- `spfresh_open`.  `index_dir` and `params` are `UNUSED`.  `alloc` is what
`new (std::nothrow) SPFreshHandle()` returns when it is reached. -/
def spfresh_open (heap : Heap) (alloc : Ptr) (index_dir : Option String) (dim : Int)
    (params : Option String) (out_handle : Option Ptr) : OpenResult :=
  match out_handle with
  | none => { status := ⟨1, some "out_handle is null"⟩, heap := heap, out_handle := none }
  | some cell =>
    if alloc = 0 then
      { status := ⟨2, some "alloc handle failed"⟩, heap := heap, out_handle := some cell }
    else
      { status := ⟨0, none⟩
        heap := fun q => if q = alloc then some { dim := dim } else heap q
        out_handle := some alloc }

/-- `spfresh_close`: nothing on the null handle, `delete h` otherwise.
(`delete` of an address where no handle lives is undefined in C++; the
statements below about a released handle assume it is live.) -/
def spfresh_close (heap : Heap) (handle : Ptr) : Heap :=
  if handle = 0 then heap
  else fun q => if q = handle then none else heap q

/-- `spfresh_add`: every argument is `UNUSED`. -/
def spfresh_add (heap : Heap) (handle : Ptr) (vectors : Option (List F32)) (n : Nat)
    (ids : Option (List Int)) : CallResult :=
  { status := ⟨0, none⟩, heap := heap }

/-- The loop `for (int32_t i = 0; i < topk; ++i) { out_ids[i] = -1;
out_scores[i] = 0.0f; }` of `spfresh_search`, entered at counter `i`. -/
def searchLoop (topk : Int) (i : Nat) (out_ids : Buffer Int) (out_scores : Buffer F32) :
    Buffer Int × Buffer F32 :=
  if (i : Int) < topk then
    searchLoop topk (i + 1) (out_ids.write i (-1)) (out_scores.write i zeroF32)
  else (out_ids, out_scores)
termination_by (topk - i).toNat
decreasing_by omega

/-- `spfresh_search`: `handle` and `query` are `UNUSED`; the buffers are
written only under the guard `topk > 0 && out_ids && out_scores`. -/
def spfresh_search (heap : Heap) (handle : Ptr) (query : Option (List F32)) (topk : Int)
    (out_ids : Option (Buffer Int)) (out_scores : Option (Buffer F32)) : SearchResult :=
  if topk > 0 then
    match out_ids, out_scores with
    | some ids, some scores =>
      { status := ⟨0, none⟩
        heap := heap
        out_ids := some (searchLoop topk 0 ids scores).1
        out_scores := some (searchLoop topk 0 ids scores).2 }
    | _, _ => { status := ⟨0, none⟩, heap := heap, out_ids := out_ids, out_scores := out_scores }
  else { status := ⟨0, none⟩, heap := heap, out_ids := out_ids, out_scores := out_scores }

/-- `spfresh_save`: `handle` is `UNUSED`. -/
def spfresh_save (heap : Heap) (handle : Ptr) : CallResult :=
  { status := ⟨0, none⟩, heap := heap }


/-! ## Sequences of calls -/

/-- The arguments of one `spfresh_add` call besides the handle. -/
structure AddArgs where
  vectors : Option (List F32)
  n : Nat
  ids : Option (List Int)

/-- A run of `spfresh_add` calls on one handle, first call first. -/
def runAdds (heap : Heap) (handle : Ptr) : List AddArgs → Heap
  | [] => heap
  | a :: rest => runAdds (spfresh_add heap handle a.vectors a.n a.ids).heap handle rest

/-- One call of the boundary that takes a handle and returns a status. -/
inductive Call where
  | add (handle : Ptr) (vectors : Option (List F32)) (n : Nat) (ids : Option (List Int))
  | search (handle : Ptr) (query : Option (List F32)) (topk : Int)
      (out_ids : Option (Buffer Int)) (out_scores : Option (Buffer F32))
  | save (handle : Ptr)

/-- The free store one call leaves. -/
def applyCall (heap : Heap) : Call → Heap
  | .add handle vectors n ids => (spfresh_add heap handle vectors n ids).heap
  | .search handle query topk out_ids out_scores =>
    (spfresh_search heap handle query topk out_ids out_scores).heap
  | .save handle => (spfresh_save heap handle).heap

/-- The free store a run of calls leaves, first call first. -/
def runCalls (heap : Heap) : List Call → Heap
  | [] => heap
  | c :: rest => runCalls (applyCall heap c) rest

/-- The content of slot `i` of the buffer behind a pointer, `none` for the
null pointer. -/
def slot {α : Type} (buf : Option (Buffer α)) (i : Nat) : Option α :=
  buf.map fun b => b i

/-! ## The scenario of the specification

`open(dim=4)`, `add` of `[[0,0,0,0],[10,10,10,10]]` with ids `[1,2]`, then
`search([0,0,0,1], k=1)`. -/

/-- The bit pattern of `1.0f`. -/
def oneF32 : F32 := 0x3F800000

/-- The bit pattern of `10.0f`. -/
def tenF32 : F32 := 0x41200000

/-- The free store and handle cell after `spfresh_open("idx", 4, nullptr, &h)`
on an empty free store, the allocator handing out address `4096`. -/
def scenarioOpen : OpenResult :=
  spfresh_open Heap.empty 4096 (some "idx") 4 none (some 0)

/-- The two vectors of the scenario, row-major. -/
def scenarioVectors : List F32 :=
  [zeroF32, zeroF32, zeroF32, zeroF32, tenF32, tenF32, tenF32, tenF32]

/-- The scenario after `spfresh_add(h, vectors, 2, {1, 2})`. -/
def scenarioAdd : CallResult :=
  spfresh_add scenarioOpen.heap 4096 (some scenarioVectors) 2 (some [1, 2])

/-- The query `[0,0,0,1]` of the scenario. -/
def scenarioQuery : List F32 := [zeroF32, zeroF32, zeroF32, oneF32]

/-! ## The fill loop -/

/-- The ids buffer after the loop entered at counter `i`: slot `j` holds `-1`
when `i ≤ j < topk` and is untouched otherwise. -/
theorem searchLoop_ids (topk : Int) (i : Nat) (out_ids : Buffer Int) (out_scores : Buffer F32)
    (j : Nat) :
    (searchLoop topk i out_ids out_scores).1 j
      = if i ≤ j ∧ (j : Int) < topk then -1 else out_ids j := by
  induction i, out_ids, out_scores using searchLoop.induct topk with
  | case1 i ids scores hlt ih =>
    rw [searchLoop, if_pos hlt, ih]
    by_cases hj : j = i
    · subst hj
      simp [Buffer.write, hlt]
    · by_cases hc : i ≤ j ∧ (j : Int) < topk
      · have hc1 : i + 1 ≤ j ∧ (j : Int) < topk := ⟨by omega, hc.2⟩
        simp [hc, hc1]
      · have hc1 : ¬ (i + 1 ≤ j ∧ (j : Int) < topk) := fun h => hc ⟨by omega, h.2⟩
        simp [hc, hc1, Buffer.write, hj]
  | case2 i ids scores hge =>
    rw [searchLoop, if_neg hge]
    have : ¬ (i ≤ j ∧ (j : Int) < topk) := by
      intro hc
      apply hge
      have : (i : Int) ≤ j := by exact_mod_cast hc.1
      omega
    simp [this]

/-- The scores buffer after the loop entered at counter `i`: slot `j` holds
`0.0f` when `i ≤ j < topk` and is untouched otherwise. -/
theorem searchLoop_scores (topk : Int) (i : Nat) (out_ids : Buffer Int)
    (out_scores : Buffer F32) (j : Nat) :
    (searchLoop topk i out_ids out_scores).2 j
      = if i ≤ j ∧ (j : Int) < topk then zeroF32 else out_scores j := by
  induction i, out_ids, out_scores using searchLoop.induct topk with
  | case1 i ids scores hlt ih =>
    rw [searchLoop, if_pos hlt, ih]
    by_cases hj : j = i
    · subst hj
      simp [Buffer.write, hlt]
    · by_cases hc : i ≤ j ∧ (j : Int) < topk
      · have hc1 : i + 1 ≤ j ∧ (j : Int) < topk := ⟨by omega, hc.2⟩
        simp [hc, hc1]
      · have hc1 : ¬ (i + 1 ≤ j ∧ (j : Int) < topk) := fun h => hc ⟨by omega, h.2⟩
        simp [hc, hc1, Buffer.write, hj]
  | case2 i ids scores hge =>
    rw [searchLoop, if_neg hge]
    have : ¬ (i ≤ j ∧ (j : Int) < topk) := by
      intro hc
      apply hge
      have : (i : Int) ≤ j := by exact_mod_cast hc.1
      omega
    simp [this]

/-- The status and free store `spfresh_search` leaves, whatever it is given. -/
theorem spfresh_search_status_heap (heap : Heap) (handle : Ptr) (query : Option (List F32))
    (topk : Int) (out_ids : Option (Buffer Int)) (out_scores : Option (Buffer F32)) :
    (spfresh_search heap handle query topk out_ids out_scores).status = ⟨0, none⟩
      ∧ (spfresh_search heap handle query topk out_ids out_scores).heap = heap := by
  unfold spfresh_search
  split
  · split <;> exact ⟨rfl, rfl⟩
  · exact ⟨rfl, rfl⟩

/-- The buffers `spfresh_search` leaves when its guard holds. -/
theorem spfresh_search_guarded (heap : Heap) (handle : Ptr) (query : Option (List F32))
    (topk : Int) (ids : Buffer Int) (scores : Buffer F32) (hk : 0 < topk) :
    (spfresh_search heap handle query topk (some ids) (some scores)).out_ids
        = some (searchLoop topk 0 ids scores).1
      ∧ (spfresh_search heap handle query topk (some ids) (some scores)).out_scores
        = some (searchLoop topk 0 ids scores).2 := by
  have hk1 : topk > 0 := hk
  simp [spfresh_search, hk1]

/-- The buffers `spfresh_search` leaves when its guard fails. -/
theorem spfresh_search_unguarded (heap : Heap) (handle : Ptr) (query : Option (List F32))
    (topk : Int) (out_ids : Option (Buffer Int)) (out_scores : Option (Buffer F32))
    (hg : topk ≤ 0 ∨ out_ids = none ∨ out_scores = none) :
    (spfresh_search heap handle query topk out_ids out_scores).out_ids = out_ids
      ∧ (spfresh_search heap handle query topk out_ids out_scores).out_scores = out_scores := by
  unfold spfresh_search
  split
  · rename_i hk
    split
    · rename_i ids scores
      rcases hg with h | h | h
      · omega
      · cases h
      · cases h
    · exact ⟨rfl, rfl⟩
  · exact ⟨rfl, rfl⟩

/-- Calls of `spfresh_add`, `spfresh_search` and `spfresh_save` leave the free
store as it was. -/
theorem applyCall_heap (heap : Heap) (c : Call) : applyCall heap c = heap := by
  cases c with
  | add handle vectors n ids => rfl
  | search handle query topk out_ids out_scores =>
    exact (spfresh_search_status_heap heap handle query topk out_ids out_scores).2
  | save handle => rfl

/-- A run of such calls leaves the free store as it was. -/
theorem runCalls_heap (heap : Heap) (calls : List Call) : runCalls heap calls = heap := by
  induction calls generalizing heap with
  | nil => rfl
  | cons c rest ih => rw [runCalls, ih, applyCall_heap]

/-- A run of `spfresh_add` calls leaves the free store as it was. -/
theorem runAdds_heap (heap : Heap) (handle : Ptr) (adds : List AddArgs) :
    runAdds heap handle adds = heap := by
  induction adds generalizing heap with
  | nil => rfl
  | cons a rest ih => rw [runAdds, ih]; rfl

/-! ## Claims about `spfresh_search` -/

/-- C1 (the code at the scenario of the claim): after `open(dim=4)` and an
accepted `add` of `[[0,0,0,0],[10,10,10,10]]` with ids `[1,2]`, the call
`search([0,0,0,1], topk=1)` on zeroed output buffers returns code `0` and
leaves `out_ids[0] = -1`, not the id `1` of the nearest inserted vector. -/
theorem spfresh_search_scenario_reports_no_id :
    scenarioOpen.status.code = 0
      ∧ scenarioOpen.out_handle = some 4096
      ∧ scenarioAdd.status.code = 0
      ∧ (spfresh_search scenarioAdd.heap 4096 (some scenarioQuery) 1
          (some fun _ => 0) (some fun _ => 0)).status.code = 0
      ∧ slot (spfresh_search scenarioAdd.heap 4096 (some scenarioQuery) 1
          (some fun _ => 0) (some fun _ => 0)).out_ids 0 = some (-1)
      ∧ slot (spfresh_search scenarioAdd.heap 4096 (some scenarioQuery) 1
          (some fun _ => 0) (some fun _ => 0)).out_ids 0 ≠ some 1 := by
  refine ⟨by decide, by decide, by decide, ?_, ?_, ?_⟩ <;>
    simp [spfresh_search, searchLoop, Buffer.write, slot]

/-- C2 (the code at the failing input): on a freshly opened handle with no
vector added, `spfresh_search` with `topk = 2`, an `out_ids` buffer holding
`7` in both slots and a null `out_scores` returns code `0` and leaves both
slots of `out_ids` holding `7`, not `-1`. -/
theorem spfresh_search_null_scores_leaves_ids :
    (spfresh_search scenarioOpen.heap 4096 (some scenarioQuery) 2
        (some fun _ => 7) none).status.code = 0
      ∧ slot (spfresh_search scenarioOpen.heap 4096 (some scenarioQuery) 2
          (some fun _ => 7) none).out_ids 0 = some 7
      ∧ slot (spfresh_search scenarioOpen.heap 4096 (some scenarioQuery) 2
          (some fun _ => 7) none).out_ids 1 = some 7 := by
  refine ⟨?_, ?_, ?_⟩ <;> simp [spfresh_search, slot]

/-- C3 (counterexample): `spfresh_search` with `topk = 0` on the opened handle
of the scenario, with both output buffers present, returns code `0`. -/
theorem spfresh_search_topk_zero_succeeds :
    (spfresh_search scenarioOpen.heap 4096 (some scenarioQuery) 0
        (some fun _ => 7) (some fun _ => 9)).status.code = 0 := by
  simp [spfresh_search]

/-- C3 (amended): for every `topk <= 0`, whatever the handle, query and output
buffers, `spfresh_search` returns code `0` with a null message and leaves
both output buffers and the free store as they were. -/
theorem spfresh_search_nonpositive_topk (heap : Heap) (handle : Ptr)
    (query : Option (List F32)) (topk : Int) (out_ids : Option (Buffer Int))
    (out_scores : Option (Buffer F32)) (hk : topk ≤ 0) :
    (spfresh_search heap handle query topk out_ids out_scores).status = ⟨0, none⟩
      ∧ (spfresh_search heap handle query topk out_ids out_scores).out_ids = out_ids
      ∧ (spfresh_search heap handle query topk out_ids out_scores).out_scores = out_scores
      ∧ (spfresh_search heap handle query topk out_ids out_scores).heap = heap := by
  have hu := spfresh_search_unguarded heap handle query topk out_ids out_scores (Or.inl hk)
  have hs := spfresh_search_status_heap heap handle query topk out_ids out_scores
  exact ⟨hs.1, hu.1, hu.2, hs.2⟩

/-- C3 (amended), at `topk = -3` on the opened handle of the scenario. -/
theorem spfresh_search_nonpositive_topk_witness :
    (-3 : Int) ≤ 0
      ∧ (spfresh_search scenarioOpen.heap 4096 (some scenarioQuery) (-3)
          (some fun _ => 7) (some fun _ => 9)).status = ⟨0, none⟩
      ∧ (spfresh_search scenarioOpen.heap 4096 (some scenarioQuery) (-3)
          (some fun _ => 7) (some fun _ => 9)).out_ids = some (fun _ => 7)
      ∧ (spfresh_search scenarioOpen.heap 4096 (some scenarioQuery) (-3)
          (some fun _ => 7) (some fun _ => 9)).out_scores = some (fun _ => 9)
      ∧ (spfresh_search scenarioOpen.heap 4096 (some scenarioQuery) (-3)
          (some fun _ => 7) (some fun _ => 9)).heap = scenarioOpen.heap :=
  ⟨by decide,
    spfresh_search_nonpositive_topk scenarioOpen.heap 4096 (some scenarioQuery) (-3)
      (some fun _ => 7) (some fun _ => 9) (by decide)⟩

/-- C10: `spfresh_search` returns code `0` with a null message and leaves the
free store as it was; when `topk > 0` and both buffers are non-null, every
slot `i < topk` of the two buffers holds `-1` and `0.0f` afterwards and every
slot `i >= topk` holds what it held before; when `topk <= 0` or a buffer is
null, both buffers are left as they were. -/
theorem spfresh_search_frame (heap : Heap) (handle : Ptr) (query : Option (List F32))
    (topk : Int) (out_ids : Option (Buffer Int)) (out_scores : Option (Buffer F32)) :
    (spfresh_search heap handle query topk out_ids out_scores).status = ⟨0, none⟩
      ∧ (spfresh_search heap handle query topk out_ids out_scores).heap = heap
      ∧ (∀ ids scores, 0 < topk → out_ids = some ids → out_scores = some scores →
          ∃ ids1 scores1,
            (spfresh_search heap handle query topk out_ids out_scores).out_ids = some ids1
              ∧ (spfresh_search heap handle query topk out_ids out_scores).out_scores
                  = some scores1
              ∧ (∀ i : Nat, (i : Int) < topk → ids1 i = -1 ∧ scores1 i = zeroF32)
              ∧ (∀ i : Nat, topk ≤ (i : Int) → ids1 i = ids i ∧ scores1 i = scores i))
      ∧ (topk ≤ 0 ∨ out_ids = none ∨ out_scores = none →
          (spfresh_search heap handle query topk out_ids out_scores).out_ids = out_ids
            ∧ (spfresh_search heap handle query topk out_ids out_scores).out_scores
                = out_scores) := by
  have hs := spfresh_search_status_heap heap handle query topk out_ids out_scores
  refine ⟨hs.1, hs.2, ?_, spfresh_search_unguarded heap handle query topk out_ids out_scores⟩
  intro ids scores hk hi hsc
  subst hi hsc
  have hg := spfresh_search_guarded heap handle query topk ids scores hk
  refine ⟨_, _, hg.1, hg.2, ?_, ?_⟩
  · intro i hi
    rw [searchLoop_ids, searchLoop_scores]
    simp [hi]
  · intro i hi
    rw [searchLoop_ids, searchLoop_scores]
    have : ¬ ((i : Int) < topk) := by omega
    simp [this]

/-- C10, at `topk = 2` with both buffers present: slots `0` and `1` are
written, slot `2` keeps its content. -/
theorem spfresh_search_frame_witness :
    slot (spfresh_search scenarioOpen.heap 4096 (some scenarioQuery) 2
        (some fun _ => 7) (some fun _ => 9)).out_ids 1 = some (-1)
      ∧ slot (spfresh_search scenarioOpen.heap 4096 (some scenarioQuery) 2
        (some fun _ => 7) (some fun _ => 9)).out_scores 1 = some zeroF32
      ∧ slot (spfresh_search scenarioOpen.heap 4096 (some scenarioQuery) 2
        (some fun _ => 7) (some fun _ => 9)).out_ids 2 = some 7
      ∧ slot (spfresh_search scenarioOpen.heap 4096 (some scenarioQuery) 2
        (some fun _ => 7) (some fun _ => 9)).out_scores 2 = some 9 := by
  obtain ⟨ids1, scores1, h1, h2, hin, hout⟩ :=
    (spfresh_search_frame scenarioOpen.heap 4096 (some scenarioQuery) 2
      (some fun _ => 7) (some fun _ => 9)).2.2.1 (fun _ => 7) (fun _ => 9) (by decide) rfl rfl
  rw [h1, h2]
  exact ⟨congrArg some (hin 1 (by decide)).1, congrArg some (hin 1 (by decide)).2,
    congrArg some (hout 2 (by decide)).1, congrArg some (hout 2 (by decide)).2⟩

/-- C4 (counterexample): on the opened handle of the scenario, a batch whose
ids are `[1, 1]` is accepted with code `0`, and so is a batch with ids `[1, 2]`
sent after the batch with ids `[1, 2]` of the scenario was accepted. -/
theorem spfresh_add_accepts_duplicate_ids :
    ¬ ([1, 1] : List Int).Nodup
      ∧ (spfresh_add scenarioOpen.heap 4096 (some scenarioVectors) 2 (some [1, 1])).status.code = 0
      ∧ scenarioAdd.status.code = 0
      ∧ (spfresh_add scenarioAdd.heap 4096 (some scenarioVectors) 2 (some [1, 2])).status.code
          = 0 := by
  refine ⟨by decide, rfl, rfl, rfl⟩

/-- C4 (amended): for every open handle, any run of earlier `spfresh_add`
calls on it, and a batch whose ids hold the same id twice or an id sent in one
of the earlier calls, `spfresh_add` returns code `0` with a null message (no
duplicate is reported) and leaves the index state as it was before the call. -/
theorem spfresh_add_duplicate_ids_ok (heap : Heap) (handle : Ptr) (earlier : List AddArgs)
    (vectors : Option (List F32)) (n : Nat) (batch : List Int)
    (hopen : (heap handle).isSome)
    (hdup : ¬ batch.Nodup
      ∨ ∃ a ∈ earlier, ∃ sent, a.ids = some sent ∧ ∃ x ∈ batch, x ∈ sent) :
    (spfresh_add (runAdds heap handle earlier) handle vectors n (some batch)).status
        = ⟨0, none⟩
      ∧ (spfresh_add (runAdds heap handle earlier) handle vectors n (some batch)).heap
        = runAdds heap handle earlier
      ∧ (spfresh_add (runAdds heap handle earlier) handle vectors n (some batch)).heap handle
        = heap handle := by
  refine ⟨rfl, rfl, ?_⟩
  show runAdds heap handle earlier handle = heap handle
  rw [runAdds_heap]

/-- C4 (amended), at the scenario: on the opened handle `4096`, after the
batch with ids `[1, 2]`, a second batch with ids `[1, 2]` is accepted with
code `0` and the handle is as `spfresh_open` left it. -/
theorem spfresh_add_duplicate_ids_ok_witness :
    (scenarioOpen.heap 4096).isSome
      ∧ (1 : Int) ∈ [1, 2]
      ∧ (spfresh_add (runAdds scenarioOpen.heap 4096 [⟨some scenarioVectors, 2, some [1, 2]⟩])
          4096 (some scenarioVectors) 2 (some [1, 2])).status = ⟨0, none⟩
      ∧ (spfresh_add (runAdds scenarioOpen.heap 4096 [⟨some scenarioVectors, 2, some [1, 2]⟩])
          4096 (some scenarioVectors) 2 (some [1, 2])).heap 4096 = scenarioOpen.heap 4096 :=
  have h := spfresh_add_duplicate_ids_ok scenarioOpen.heap 4096
    [⟨some scenarioVectors, 2, some [1, 2]⟩] (some scenarioVectors) 2 [1, 2] (by decide)
    (Or.inr ⟨_, List.mem_singleton.mpr rfl, [1, 2], rfl, 1, by decide, by decide⟩)
  ⟨by decide, by decide, h.1, h.2.2⟩

/-! ## Claims about `spfresh_open` -/

/-- C9: `spfresh_open` returns code `1` with the message `out_handle is null`
and touches nothing when `out_handle` is null; code `2` with the message
`alloc handle failed`, leaving the free store and the cell behind `out_handle`
as they were, when the allocation fails; and otherwise code `0` with a null
message, the new address in the cell behind `out_handle`, a handle of the
given `dim` at that address and every other address as before.  The status
and the cell do not depend on `index_dir`, `dim` or `params`. -/
theorem spfresh_open_cases (heap : Heap) (alloc : Ptr) (index_dir : Option String) (dim : Int)
    (params : Option String) (out_handle : Option Ptr) :
    (out_handle = none →
        (spfresh_open heap alloc index_dir dim params out_handle).status
            = ⟨1, some "out_handle is null"⟩
          ∧ (spfresh_open heap alloc index_dir dim params out_handle).heap = heap
          ∧ (spfresh_open heap alloc index_dir dim params out_handle).out_handle = none)
      ∧ (∀ cell, out_handle = some cell → alloc = 0 →
        (spfresh_open heap alloc index_dir dim params out_handle).status
            = ⟨2, some "alloc handle failed"⟩
          ∧ (spfresh_open heap alloc index_dir dim params out_handle).heap = heap
          ∧ (spfresh_open heap alloc index_dir dim params out_handle).out_handle = some cell)
      ∧ (∀ cell, out_handle = some cell → alloc ≠ 0 →
        (spfresh_open heap alloc index_dir dim params out_handle).status = ⟨0, none⟩
          ∧ (spfresh_open heap alloc index_dir dim params out_handle).out_handle = some alloc
          ∧ (spfresh_open heap alloc index_dir dim params out_handle).heap alloc
              = some { dim := dim }
          ∧ ∀ q, q ≠ alloc →
              (spfresh_open heap alloc index_dir dim params out_handle).heap q = heap q)
      ∧ (∀ (index_dir2 : Option String) (dim2 : Int) (params2 : Option String),
        (spfresh_open heap alloc index_dir2 dim2 params2 out_handle).status
            = (spfresh_open heap alloc index_dir dim params out_handle).status
          ∧ (spfresh_open heap alloc index_dir2 dim2 params2 out_handle).out_handle
            = (spfresh_open heap alloc index_dir dim params out_handle).out_handle)
      ∧ ((spfresh_open heap alloc index_dir dim params out_handle).status.code ≠ 0
          ↔ (out_handle = none ∨ alloc = 0)) := by
  refine ⟨?_, ?_, ?_, ?_, ?_⟩
  · intro h
    subst h
    exact ⟨rfl, rfl, rfl⟩
  · intro cell h ha
    subst h
    simp [spfresh_open, ha]
  · intro cell h ha
    subst h
    refine ⟨by simp [spfresh_open, ha], by simp [spfresh_open, ha],
      by simp [spfresh_open, ha], ?_⟩
    intro q hq
    simp [spfresh_open, ha, hq]
  · intro index_dir2 dim2 params2
    cases out_handle with
    | none => exact ⟨rfl, rfl⟩
    | some cell =>
      by_cases ha : alloc = 0 <;> simp [spfresh_open, ha]
  · cases out_handle with
    | none => simp [spfresh_open]
    | some cell =>
      by_cases ha : alloc = 0 <;> simp [spfresh_open, ha]

/-- C8: after a successful `spfresh_open` the cell behind `out_handle` holds
the address of a handle whose `dim` is the `dim` passed, and after every run
of `spfresh_add`, `spfresh_search` and `spfresh_save` calls, with any
arguments, the handle at that address still has that `dim`. -/
theorem spfresh_dim_immutable (heap : Heap) (alloc : Ptr) (index_dir : Option String)
    (dim : Int) (params : Option String) (out_handle : Option Ptr)
    (hok : (spfresh_open heap alloc index_dir dim params out_handle).status.code = 0) :
    (spfresh_open heap alloc index_dir dim params out_handle).out_handle = some alloc
      ∧ (spfresh_open heap alloc index_dir dim params out_handle).heap alloc
          = some { dim := dim }
      ∧ ∀ calls : List Call,
          runCalls (spfresh_open heap alloc index_dir dim params out_handle).heap calls alloc
            = some { dim := dim } := by
  cases out_handle with
  | none => simp [spfresh_open] at hok
  | some cell =>
    by_cases ha : alloc = 0
    · simp [spfresh_open, ha] at hok
    · have hd : (spfresh_open heap alloc index_dir dim params (some cell)).heap alloc
          = some { dim := dim } := by
        simp [spfresh_open, ha]
      refine ⟨by simp [spfresh_open, ha], hd, ?_⟩
      intro calls
      rw [runCalls_heap]
      exact hd

/-- C8, at the scenario: the handle opened with `dim = 4` still has `dim = 4`
after an `add`, a `search` with `topk = 1` and a `save`. -/
theorem spfresh_dim_immutable_witness :
    scenarioOpen.status.code = 0
      ∧ scenarioOpen.heap 4096 = some { dim := 4 }
      ∧ runCalls scenarioOpen.heap
          [Call.add 4096 (some scenarioVectors) 2 (some [1, 2]),
            Call.search 4096 (some scenarioQuery) 1 (some fun _ => 0) (some fun _ => 0),
            Call.save 4096] 4096
          = some { dim := 4 } :=
  ⟨by decide,
    (spfresh_dim_immutable Heap.empty 4096 (some "idx") 4 none (some 0) (by decide)).2.1,
    (spfresh_dim_immutable Heap.empty 4096 (some "idx") 4 none (some 0) (by decide)).2.2 _⟩

/-! ## Claims about `spfresh_close` and `spfresh_save` -/

/-- C7: `spfresh_close` on the null handle leaves the free store as it was,
however many times it is called; `spfresh_close` on a non-null address where
a handle lives leaves no handle at that address and every other address as
it was. -/
theorem spfresh_close_frame (heap : Heap) :
    spfresh_close heap 0 = heap
      ∧ (∀ n : Nat, (fun h => spfresh_close h 0)^[n] heap = heap)
      ∧ (∀ handle : Ptr, handle ≠ 0 → (heap handle).isSome →
          spfresh_close heap handle handle = none
            ∧ ∀ q, q ≠ handle → spfresh_close heap handle q = heap q) := by
  refine ⟨rfl, ?_, ?_⟩
  · intro n
    induction n with
    | zero => rfl
    | succ k ih =>
      rw [Function.iterate_succ_apply]
      exact ih
  · intro handle hne _
    refine ⟨by simp [spfresh_close, hne], ?_⟩
    intro q hq
    simp [spfresh_close, hne, hq]

/-- C7, at the scenario: closing the opened handle `4096` leaves no handle
there, and three calls on the null handle leave the handle in place. -/
theorem spfresh_close_frame_witness :
    spfresh_close scenarioOpen.heap 4096 4096 = none
      ∧ (fun h => spfresh_close h 0)^[3] scenarioOpen.heap 4096 = some { dim := 4 } :=
  ⟨((spfresh_close_frame scenarioOpen.heap).2.2 4096 (by decide) (by decide)).1,
    by rw [(spfresh_close_frame scenarioOpen.heap).2.1 3]; decide⟩

end SPFresh
